import Mathlib

/-!
Shallow embedding of the task/attempt data model and lifecycle logic of
`oneanddone/tasks/models.py` (classes `Task` and `TaskAttempt`), together
with theorems settling the behavioural claims about availability, the
attempt state machine, the maintenance sweeps and keyword replacement.

Datetimes are modelled as integers (seconds); `timezone.now()` becomes an
explicit `now : Int` parameter.  Django querysets over `TaskAttempt`
become Lean lists; a queryset `update` becomes a `List.map`, a queryset
`filter(...).exists()` becomes `List.any`, and the class-level sweeps
operate on a list of (task, attempt) pairs standing for the joined rows.
-/

namespace OneAndDone

/-- `TaskAttempt.STARTED` in models.py. -/
def STARTED : Nat := 0

/-- `TaskAttempt.FINISHED` in models.py. -/
def FINISHED : Nat := 1

/-- `TaskAttempt.ABANDONED` in models.py. -/
def ABANDONED : Nat := 2

/-- `TaskAttempt.CLOSED` in models.py. -/
def CLOSED : Nat := 3

/-- A row of the `TaskAttempt` model: a user's claim on a task.
`user` is nullable (set to null when the user is deleted); `created` and
`modified` are the row timestamps, in seconds. -/
structure TaskAttempt where
  user : Option Nat
  state : Nat
  requires_notification : Bool
  created : Int
  modified : Int
deriving DecidableEq, Repr

/-- A row of the `Task` model, restricted to the fields the lifecycle and
availability logic reads: the two validity flags, the repeatable flag, the
optional date window, and the related keyword and attempt sets. -/
structure Task where
  is_draft : Bool
  is_invalid : Bool
  repeatable : Bool
  start_date : Option Int
  end_date : Option Int
  keyword_set : List String
  taskattempt_set : List TaskAttempt
deriving DecidableEq, Repr

/-- `Task.is_available` (models.py lines 209-219): false for drafts and
invalid tasks; otherwise false exactly when `now` is strictly past a set
`end_date` or strictly before a set `start_date`. -/
def Task.is_available (t : Task) (now : Int) : Bool :=
  if t.is_draft || t.is_invalid then false
  else
    !((match t.end_date with
       | some e => decide (e < now)
       | none => false) ||
      (match t.start_date with
       | some s => decide (now < s)
       | none => false))

/-- The `repeatable_filter` Q object of `Task.is_available_to_user`
(models.py line 222): matches attempts whose user differs from the given
user and whose state is not Abandoned.  The `user` column is nullable
(`SET_NULL` on user deletion), and Django compensates negated lookups on
nullable columns for SQL three-valued logic — `~Q(user=user)` becomes
`NOT (user_id = x AND user_id IS NOT NULL)` — so an attempt whose user
is null matches `~Q(user=user)` for every user. -/
def repeatable_filter (u : Nat) (a : TaskAttempt) : Bool :=
  (match a.user with
   | some v => decide (v ≠ u)
   | none => true) && decide (a.state ≠ ABANDONED)

/-- `Task.is_available_to_user` (models.py lines 221-224). -/
def Task.is_available_to_user (t : Task) (u : Nat) (now : Int) : Bool :=
  t.is_available now &&
    (t.repeatable || !(t.taskattempt_set.any (repeatable_filter u)))

/-- The per-row effect of the queryset update in `Task.save` (models.py
lines 184-186): a Started attempt becomes Closed with
`requires_notification=True`; any other attempt is left as is. -/
def closeStarted (a : TaskAttempt) : TaskAttempt :=
  if a.state = STARTED then { a with state := CLOSED, requires_notification := true }
  else a

/-- `Task.save` (models.py lines 180-186): the task fields persist
unchanged; if the task is not available, its Started attempts are closed
in one batch update. -/
def Task.save (t : Task) (now : Int) : Task :=
  if t.is_available now then t
  else { t with taskattempt_set := t.taskattempt_set.map closeStarted }

/-- `Task.replace_keywords` (models.py lines 203-207): delete all of the
task's keywords, then create one keyword per input string of nonzero
length (Python `if len(keyword):`). -/
def Task.replace_keywords (t : Task) (keywords : List String) : Task :=
  keywords.foldl
    (fun acc k =>
      if k.length ≠ 0 then { acc with keyword_set := acc.keyword_set ++ [k] }
      else acc)
    { t with keyword_set := ([] : List String) }

/-- The midnight normalisation of `Task.is_available_filter` (models.py
line 282): `now.replace(hour=0, minute=0, second=0)`, i.e. the start of
the day containing `now`. -/
def midnightOf (now : Int) : Int := (Int.fdiv now 86400) * 86400

/-- The two negated relation clauses of `Task.is_available_filter`
(models.py lines 291-292): the task has no attempt in state Started and
none in state Finished. -/
def no_live_attempts (l : List TaskAttempt) : Bool :=
  !(l.any (fun a => decide (a.state = STARTED))) &&
  !(l.any (fun a => decide (a.state = FINISHED)))

/-- Membership predicate of the Q object built by
`Task.is_available_filter` (models.py lines 259-294): not draft, not
invalid, start date absent or at most the normalised now; unless
`allow_expired`, end date absent or strictly after the normalised now;
and repeatable, or no attempt in state Started and none in state
Finished. -/
def Task.is_available_filter (t : Task) (now : Int) (allow_expired : Bool) : Bool :=
  let mid := midnightOf now
  ((!t.is_draft) && (!t.is_invalid) &&
    (match t.start_date with
     | none => true
     | some s => decide (s ≤ mid))) &&
  (allow_expired ||
    (match t.end_date with
     | none => true
     | some e => decide (mid < e))) &&
  (t.repeatable || no_live_attempts t.taskattempt_set)

/-- The row filter of `TaskAttempt.close_stale_onetime_attempts`
(models.py lines 374-378): state Started, created at or before
`now - expiration` (with the expiration given in days), task not
repeatable. -/
def stale_pred (now expDays : Int) (p : Task × TaskAttempt) : Bool :=
  decide (p.2.state = STARTED) &&
  decide (p.2.created ≤ now - expDays * 86400) &&
  decide (p.1.repeatable = false)

/-- Per-row effect of the bulk update in
`TaskAttempt.close_stale_onetime_attempts`. -/
def staleClose (now expDays : Int) (p : Task × TaskAttempt) : Task × TaskAttempt :=
  if stale_pred now expDays p then
    (p.1, { p.2 with state := CLOSED, requires_notification := true })
  else p

/-- `TaskAttempt.close_stale_onetime_attempts` (models.py lines 369-381):
one bulk update over all (task, attempt) rows, returning the updated rows
and the number of rows the update matched. -/
def close_stale_onetime_attempts (db : List (Task × TaskAttempt)) (now expDays : Int) :
    List (Task × TaskAttempt) × Nat :=
  (db.map (staleClose now expDays), (db.filter (stale_pred now expDays)).length)

/-- The forced transition used by `TaskAttempt.close_expired_task_attempts`
(models.py lines 392-393). -/
def closeForced (a : TaskAttempt) : TaskAttempt :=
  { a with state := CLOSED, requires_notification := true }

/-- `TaskAttempt.close_expired_task_attempts` (models.py lines 383-396):
iterate over the rows one at a time; every Started attempt whose task is
not available is closed with notification and counted. -/
def close_expired_task_attempts (now : Int) :
    List (Task × TaskAttempt) → List (Task × TaskAttempt) × Nat
  | [] => ([], 0)
  | p :: rest =>
    let r := close_expired_task_attempts now rest
    if p.2.state = STARTED && !(p.1.is_available now) then
      ((p.1, closeForced p.2) :: r.1, r.2 + 1)
    else (p :: r.1, r.2)

/-- `TaskAttempt.attempt_length_in_minutes` (models.py lines 360-364):
`round((end_seconds - start_seconds) / 60, 1)`, at second granularity. -/
def TaskAttempt.attempt_length_in_minutes (a : TaskAttempt) : ℚ :=
  ((round ((((a.modified : ℚ) - (a.created : ℚ)) / 60) * 10) : ℤ) : ℚ) / 10

/-- Availability as the spec words it for claim C2: a half-open window
`[start_date, end_date)`, so a task whose `end_date` equals `now` would
already be unavailable.  Written from the spec sentence, to be compared
against `Task.is_available` from the source. -/
def is_available_spec_halfopen (t : Task) (now : Int) : Bool :=
  (!t.is_draft) && (!t.is_invalid) &&
  (match t.start_date with
   | none => true
   | some s => decide (s ≤ now)) &&
  (match t.end_date with
   | none => true
   | some e => decide (now < e))

/-- Characterisation of `Task.is_available`: true exactly when the task is
neither draft nor invalid and `now` lies in the closed window, each bound
only constraining when present. -/
theorem is_available_iff (t : Task) (now : Int) :
    t.is_available now = true ↔
      (t.is_draft = false ∧ t.is_invalid = false ∧
       (∀ s, t.start_date = some s → s ≤ now) ∧
       (∀ e, t.end_date = some e → now ≤ e)) := by
  rcases t with ⟨d, i, r, sd, ed, ks, las⟩
  simp only [Task.is_available]
  cases d <;> cases i <;> cases sd <;> cases ed <;>
    (simp; try omega)

/-- C2 (amended): for every task, `is_available` is true if and only if the
task is not a draft, not invalid, and the current time falls within the
closed window `[start_date, end_date]` — a task stays available at exactly
its `end_date` — where a null `start_date` means no lower bound and a null
`end_date` means no upper bound; any draft or invalid task is unavailable
regardless of dates, and a non-draft, non-invalid task with both dates
null is available. -/
theorem c2_availability_window (t : Task) (now : Int) :
    t.is_available now = true ↔
      (t.is_draft = false ∧ t.is_invalid = false ∧
       (∀ s, t.start_date = some s → s ≤ now) ∧
       (∀ e, t.end_date = some e → now ≤ e)) :=
  is_available_iff t now

/-- A non-draft, non-invalid task whose `end_date` is exactly 100. -/
def c2Task : Task :=
  { is_draft := false, is_invalid := false, repeatable := true,
    start_date := none, end_date := some 100,
    keyword_set := [], taskattempt_set := [] }

/-- C2 (counterexample): at `now` equal to the task's `end_date`, the code
still reports the task available, while the claimed half-open window
`[start_date, end_date)` would make it unavailable. -/
theorem c2_availability_window_cex :
    c2Task.end_date = some 100 ∧
    c2Task.is_available 100 = true ∧
    is_available_spec_halfopen c2Task 100 = false := by
  refine ⟨rfl, ?_, ?_⟩ <;> decide

/-- The Started attempt of user 0 used for claim C1. -/
def c1Attempt : TaskAttempt :=
  { user := some 0, state := STARTED, requires_notification := false,
    created := 0, modified := 0 }

/-- A non-repeatable, otherwise available task whose only attempt is
`c1Attempt`, the Started attempt of user 0. -/
def c1Task : Task :=
  { is_draft := false, is_invalid := false, repeatable := false,
    start_date := none, end_date := none,
    keyword_set := [], taskattempt_set := [c1Attempt] }

/-- C1 (counterexample): a non-repeatable, otherwise available task with a
Started attempt by user 0 is still reported available to user 0
themselves — `is_available_to_user` returns true, not false as claimed,
because the `repeatable_filter` excludes the current user's own
attempts. -/
theorem c1_double_claim_cex :
    c1Task.repeatable = false ∧
    c1Task.is_available 0 = true ∧
    c1Attempt ∈ c1Task.taskattempt_set ∧
    c1Attempt.user = some 0 ∧
    c1Attempt.state = STARTED ∧
    c1Task.is_available_to_user 0 0 = true := by
  refine ⟨rfl, by decide, by decide, rfl, rfl, by decide⟩

/-- C1 (amended): for a non-repeatable task with an existing Started
attempt by user A, `is_available_to_user` returns false for every other
user B; for A themselves it returns true (the check ignores the current
user's own attempts), provided the task is available and every attempt on
it either belongs to A or is Abandoned. -/
theorem c1_double_claim (t : Task) (now : Int) (uA uB : Nat) (a : TaskAttempt)
    (hrep : t.repeatable = false)
    (ha : a ∈ t.taskattempt_set) (hu : a.user = some uA)
    (hs : a.state = STARTED) (hne : uB ≠ uA) :
    t.is_available_to_user uB now = false ∧
    (t.is_available now = true →
      (∀ b ∈ t.taskattempt_set, b.user = some uA ∨ b.state = ABANDONED) →
      t.is_available_to_user uA now = true) := by
  constructor
  · have hany : t.taskattempt_set.any (repeatable_filter uB) = true := by
      refine List.any_eq_true.mpr ⟨a, ha, ?_⟩
      simp only [repeatable_filter, hu, hs]
      simp [STARTED, ABANDONED]
      exact fun h => hne h.symm
    simp [Task.is_available_to_user, hrep, hany]
  · intro hav hall
    have hnone : t.taskattempt_set.any (repeatable_filter uA) = false := by
      rw [List.any_eq_false]
      intro b hb
      rcases hall b hb with h1 | h2
      · simp [repeatable_filter, h1]
      · simp [repeatable_filter, h2]
    simp [Task.is_available_to_user, hrep, hav, hnone]

/-- C1 (witness): on the concrete task `c1Task`, user 1 is blocked while
user 0 — holder of the Started attempt — is not. -/
theorem c1_double_claim_witness :
    c1Task.is_available_to_user 1 0 = false ∧
    c1Task.is_available_to_user 0 0 = true := by
  have h := c1_double_claim c1Task 0 0 1 c1Attempt rfl (by decide) rfl rfl (by decide)
  exact ⟨h.1, h.2 (by decide) (by decide)⟩

/-- C8: abandoned attempts never block availability — an otherwise
available non-repeatable task all of whose attempts are Abandoned is
available to every user. -/
theorem c8_abandoned_never_blocks (t : Task) (now : Int) (u : Nat)
    (hav : t.is_available now = true) (_hrep : t.repeatable = false)
    (hall : ∀ a ∈ t.taskattempt_set, a.state = ABANDONED) :
    t.is_available_to_user u now = true := by
  have hnone : t.taskattempt_set.any (repeatable_filter u) = false := by
    rw [List.any_eq_false]
    intro b hb
    simp [repeatable_filter, hall b hb]
  simp [Task.is_available_to_user, hav, hnone]

/-- A non-repeatable task whose only attempt, by user 0, is Abandoned. -/
def c8Task : Task :=
  { is_draft := false, is_invalid := false, repeatable := false,
    start_date := none, end_date := none,
    keyword_set := [],
    taskattempt_set := [{ user := some 0, state := ABANDONED,
                          requires_notification := false,
                          created := 0, modified := 0 }] }

/-- C8 (witness): the concrete task `c8Task` is available to user 1, who
is not the user of its Abandoned attempt. -/
theorem c8_abandoned_never_blocks_witness :
    c8Task.is_available_to_user 1 0 = true :=
  c8_abandoned_never_blocks c8Task 0 1 (by decide) rfl (by decide)

/-- C4: saving a task that is unavailable maps every attempt through
`closeStarted`, which turns each Started attempt into a Closed one with
`requires_notification` set and leaves Finished, Abandoned and Closed
attempts completely unchanged. -/
theorem c4_save_closes_started (t : Task) (now : Int)
    (h : t.is_available now = false) :
    (t.save now).taskattempt_set = t.taskattempt_set.map closeStarted ∧
    (∀ a : TaskAttempt, a.state = STARTED →
      closeStarted a = { a with state := CLOSED, requires_notification := true }) ∧
    (∀ a : TaskAttempt,
      a.state = FINISHED ∨ a.state = ABANDONED ∨ a.state = CLOSED →
      closeStarted a = a) := by
  refine ⟨?_, ?_, ?_⟩
  · simp [Task.save, h]
  · intro a ha
    simp [closeStarted, ha]
  · intro a ha
    have hns : a.state ≠ STARTED := by
      rcases ha with h1 | h1 | h1 <;>
        simp [h1, STARTED, FINISHED, ABANDONED, CLOSED]
    simp [closeStarted, hns]

/-- An invalid task with one Started and one Finished attempt. -/
def c4Task : Task :=
  { is_draft := false, is_invalid := true, repeatable := true,
    start_date := none, end_date := none,
    keyword_set := [],
    taskattempt_set := [{ user := some 0, state := STARTED,
                          requires_notification := false,
                          created := 0, modified := 0 },
                        { user := some 1, state := FINISHED,
                          requires_notification := false,
                          created := 0, modified := 0 }] }

/-- C4 (witness): saving the concrete invalid task `c4Task` closes its
Started attempt with notification and keeps its Finished attempt as
it was. -/
theorem c4_save_closes_started_witness :
    (c4Task.save 0).taskattempt_set = c4Task.taskattempt_set.map closeStarted ∧
    (c4Task.save 0).taskattempt_set =
      [{ user := some 0, state := CLOSED, requires_notification := true,
         created := 0, modified := 0 },
       { user := some 1, state := FINISHED, requires_notification := false,
         created := 0, modified := 0 }] := by
  have h := c4_save_closes_started c4Task 0 (by decide)
  exact ⟨h.1, by decide⟩

/-- `close_expired_task_attempts` equals the map that closes exactly the
Started attempts of unavailable tasks, paired with the count of the rows
so closed. -/
theorem close_expired_eq (now : Int) (db : List (Task × TaskAttempt)) :
    close_expired_task_attempts now db =
      (db.map (fun p =>
          if p.2.state = STARTED && !(p.1.is_available now) then (p.1, closeForced p.2)
          else p),
       (db.filter (fun p => p.2.state = STARTED && !(p.1.is_available now))).length) := by
  induction db with
  | nil => rfl
  | cons p rest ih =>
    simp only [close_expired_task_attempts, ih, List.map_cons, List.filter_cons]
    by_cases h : (decide (p.2.state = STARTED) && !(p.1.is_available now)) = true
    · simp [h]
    · simp [h]

/-- C3: no operation of this module moves an attempt out of a terminal
state — a Finished, Abandoned or Closed attempt is fixed by
`closeStarted` and by the stale-sweep row update, and survives
`Task.save`, `close_stale_onetime_attempts` and
`close_expired_task_attempts` completely unchanged. -/
theorem c3_terminal_immutable (t : Task) (db : List (Task × TaskAttempt))
    (now expDays : Int) (tk : Task) (a : TaskAttempt)
    (h : a.state = FINISHED ∨ a.state = ABANDONED ∨ a.state = CLOSED) :
    closeStarted a = a ∧
    staleClose now expDays (tk, a) = (tk, a) ∧
    (a ∈ t.taskattempt_set → a ∈ (t.save now).taskattempt_set) ∧
    ((tk, a) ∈ db → (tk, a) ∈ (close_stale_onetime_attempts db now expDays).1) ∧
    ((tk, a) ∈ db → (tk, a) ∈ (close_expired_task_attempts now db).1) := by
  have hns : a.state ≠ STARTED := by
    rcases h with h1 | h1 | h1 <;>
      simp [h1, STARTED, FINISHED, ABANDONED, CLOSED]
  have h1 : closeStarted a = a := by simp [closeStarted, hns]
  have h2 : staleClose now expDays (tk, a) = (tk, a) := by
    simp [staleClose, stale_pred, hns]
  refine ⟨h1, h2, ?_, ?_, ?_⟩
  · intro hm
    unfold Task.save
    by_cases hav : t.is_available now = true
    · simpa [hav] using hm
    · simp only [Bool.not_eq_true] at hav
      simp only [hav, Bool.false_eq_true, if_false]
      exact List.mem_map.mpr ⟨a, hm, h1⟩
  · intro hm
    exact List.mem_map.mpr ⟨(tk, a), hm, h2⟩
  · intro hm
    rw [close_expired_eq]
    refine List.mem_map.mpr ⟨(tk, a), hm, ?_⟩
    simp [hns]

/-- C3 (witness): on a one-row database holding a Finished attempt, both
sweeps and a save of an unavailable task leave the row exactly as it
was. -/
theorem c3_terminal_immutable_witness :
    closeStarted { user := some 1, state := FINISHED, requires_notification := false,
                   created := 0, modified := 0 } =
      { user := some 1, state := FINISHED, requires_notification := false,
        created := 0, modified := 0 } ∧
    ({ user := some 1, state := FINISHED, requires_notification := false,
       created := 0, modified := 0 } : TaskAttempt) ∈
      (close_expired_task_attempts 0
        [(c4Task, { user := some 1, state := FINISHED, requires_notification := false,
                    created := 0, modified := 0 })]).1.map Prod.snd := by
  have h := c3_terminal_immutable c4Task
    [(c4Task, { user := some 1, state := FINISHED, requires_notification := false,
                created := 0, modified := 0 })]
    0 30 c4Task
    { user := some 1, state := FINISHED, requires_notification := false,
      created := 0, modified := 0 }
    (Or.inl rfl)
  exact ⟨h.1, List.mem_map.mpr ⟨_, h.2.2.2.2 (by decide), rfl⟩⟩

/-- Linear-arithmetic splitting of a strict bound, used for the filter's
end-date boundary. -/
theorem lt_iff_le_and_ne_comm (x y : Int) : x < y ↔ (x ≤ y ∧ y ≠ x) := by
  omega

/-- `no_live_attempts` holds exactly when every attempt of the list is in
neither state Started nor state Finished. -/
theorem no_live_attempts_iff (l : List TaskAttempt) :
    no_live_attempts l = true ↔
      ∀ a ∈ l, a.state ≠ STARTED ∧ a.state ≠ FINISHED := by
  simp only [no_live_attempts, Bool.and_eq_true, Bool.not_eq_true',
    List.any_eq_false, decide_eq_true_eq]
  constructor
  · rintro ⟨h1, h2⟩ a ha
    exact ⟨h1 a ha, h2 a ha⟩
  · intro h
    exact ⟨fun a ha => (h a ha).1, fun a ha => (h a ha).2⟩

/-- Characterisation of the filter with `allow_expired = false`: it keeps
exactly the tasks available at the normalised time, except that a task
whose `end_date` equals the normalised time is dropped, and except that a
non-repeatable task with a Started or Finished attempt is dropped. -/
theorem is_available_filter_false_iff (t : Task) (now : Int) :
    t.is_available_filter now false = true ↔
      (t.is_available (midnightOf now) = true ∧
       (∀ e, t.end_date = some e → e ≠ midnightOf now) ∧
       (t.repeatable = true ∨
        ∀ a ∈ t.taskattempt_set, a.state ≠ STARTED ∧ a.state ≠ FINISHED)) := by
  rw [is_available_iff]
  rcases t with ⟨d, i, r, sd, ed, ks, las⟩
  simp only [Task.is_available_filter, Bool.false_or, Bool.and_eq_true,
    Bool.or_eq_true, Bool.not_eq_true', decide_eq_true_eq, no_live_attempts_iff]
  cases sd <;> cases ed <;>
    (simp [lt_iff_le_and_ne_comm]; try tauto)

/-- Characterisation of the filter with `allow_expired = true`: the end
date is not consulted at all. -/
theorem is_available_filter_true_iff (t : Task) (now : Int) :
    t.is_available_filter now true = true ↔
      (t.is_draft = false ∧ t.is_invalid = false ∧
       (∀ s, t.start_date = some s → s ≤ midnightOf now) ∧
       (t.repeatable = true ∨
        ∀ a ∈ t.taskattempt_set, a.state ≠ STARTED ∧ a.state ≠ FINISHED)) := by
  rcases t with ⟨d, i, r, sd, ed, ks, las⟩
  simp only [Task.is_available_filter, Bool.true_or, Bool.and_eq_true,
    Bool.or_eq_true, Bool.not_eq_true', decide_eq_true_eq, no_live_attempts_iff]
  cases sd <;> (simp; try tauto)

/-- A non-repeatable, non-draft, non-invalid task without dates whose only
attempt is Started. -/
def c5Task : Task :=
  { is_draft := false, is_invalid := false, repeatable := false,
    start_date := none, end_date := none,
    keyword_set := [],
    taskattempt_set := [{ user := some 0, state := STARTED,
                          requires_notification := false,
                          created := 0, modified := 0 }] }

/-- C5 (counterexample): membership in the filter result does not agree
with `is_available` — the concrete task `c5Task` is available at time 0,
yet `is_available_filter` rejects it, because the filter additionally
drops non-repeatable tasks having a Started or Finished attempt. -/
theorem c5_filter_cex :
    c5Task.is_available 0 = true ∧
    c5Task.is_available_filter 0 false = false := by
  exact ⟨by decide, by decide⟩

/-- C5 (amended): `is_available_filter` is a storage-level predicate over
the task row and its attempt rows evaluated at the given time normalised
to midnight of its day; it excludes drafts and invalid tasks, tasks whose
`start_date` is after the normalised time and, exactly when
`allow_expired` is false, tasks whose `end_date` is at or before the
normalised time; in addition — beyond `is_available` — it excludes
non-repeatable tasks having any Started or Finished attempt, so its
membership agrees with `is_available` at the normalised time only up to
that extra clause and the `end_date = midnight` boundary. -/
theorem c5_filter_characterisation (t : Task) (now : Int) :
    (t.is_available_filter now false = true ↔
      (t.is_available (midnightOf now) = true ∧
       (∀ e, t.end_date = some e → e ≠ midnightOf now) ∧
       (t.repeatable = true ∨
        ∀ a ∈ t.taskattempt_set, a.state ≠ STARTED ∧ a.state ≠ FINISHED))) ∧
    (t.is_available_filter now true = true ↔
      (t.is_draft = false ∧ t.is_invalid = false ∧
       (∀ s, t.start_date = some s → s ≤ midnightOf now) ∧
       (t.repeatable = true ∨
        ∀ a ∈ t.taskattempt_set, a.state ≠ STARTED ∧ a.state ≠ FINISHED))) :=
  ⟨is_available_filter_false_iff t now, is_available_filter_true_iff t now⟩

/-- C6 (amended): the stale sweep closes, with notification, exactly the
Started attempts of non-repeatable tasks created at or before
`now - expiration` — at least as old as the expiration, boundary
included — leaves every other row unchanged, and reports the number of
rows matched by the bulk update. -/
theorem c6_stale_sweep (db : List (Task × TaskAttempt)) (now expDays : Int)
    (tk : Task) (a : TaskAttempt) (hmem : (tk, a) ∈ db) :
    ((a.state = STARTED ∧ tk.repeatable = false ∧
        a.created ≤ now - expDays * 86400) →
      (tk, { a with state := CLOSED, requires_notification := true }) ∈
        (close_stale_onetime_attempts db now expDays).1) ∧
    (¬(a.state = STARTED ∧ tk.repeatable = false ∧
        a.created ≤ now - expDays * 86400) →
      (tk, a) ∈ (close_stale_onetime_attempts db now expDays).1) ∧
    (close_stale_onetime_attempts db now expDays).2 =
      (db.filter (stale_pred now expDays)).length := by
  refine ⟨?_, ?_, rfl⟩
  · intro hc
    refine List.mem_map.mpr ⟨(tk, a), hmem, ?_⟩
    simp [staleClose, stale_pred, hc.1, hc.2.1, hc.2.2]
  · intro hc
    refine List.mem_map.mpr ⟨(tk, a), hmem, ?_⟩
    have hp : stale_pred now expDays (tk, a) = false := by
      rw [Bool.eq_false_iff]
      intro hp
      apply hc
      simp only [stale_pred, Bool.and_eq_true, decide_eq_true_eq] at hp
      exact ⟨hp.1.1, hp.2, hp.1.2⟩
    simp [staleClose, hp]

/-- A non-repeatable, dateless, non-draft, non-invalid task. -/
def c6Task : Task :=
  { is_draft := false, is_invalid := false, repeatable := false,
    start_date := none, end_date := none,
    keyword_set := [], taskattempt_set := [] }

/-- A Started attempt created at time 0. -/
def c6Attempt : TaskAttempt :=
  { user := some 0, state := STARTED, requires_notification := false,
    created := 0, modified := 0 }

/-- C6 (counterexample): with a 30-day expiration and `now` exactly 30
days (2592000 seconds) after the attempt's creation, the attempt is not
older than the expiration duration — its age equals it — yet the sweep
closes it, because the code compares with `created__lte`. -/
theorem c6_stale_sweep_cex :
    c6Attempt.state = STARTED ∧ c6Task.repeatable = false ∧
    c6Attempt.created = 2592000 - 30 * 86400 ∧
    (close_stale_onetime_attempts [(c6Task, c6Attempt)] 2592000 30).1 =
      [(c6Task, { c6Attempt with
                   state := CLOSED,
                   requires_notification := true })] := by
  exact ⟨rfl, rfl, by decide, by decide⟩

/-- A Started attempt 31 days old at time 0. -/
def c6Attempt31 : TaskAttempt :=
  { user := some 0, state := STARTED, requires_notification := false,
    created := -2678400, modified := 0 }

/-- A Started attempt 29 days old at time 0. -/
def c6Attempt29 : TaskAttempt :=
  { user := some 1, state := STARTED, requires_notification := false,
    created := -2505600, modified := 0 }

/-- The two-row attempt table for the C6 witness. -/
def c6Db : List (Task × TaskAttempt) :=
  [(c6Task, c6Attempt31), (c6Task, c6Attempt29)]

/-- C6 (witness): with a 30-day expiration, the 31-day-old Started attempt
on the non-repeatable task is closed with notification and the 29-day-old
one is untouched. -/
theorem c6_stale_sweep_witness :
    (c6Task, { c6Attempt31 with
                state := CLOSED,
                requires_notification := true }) ∈
      (close_stale_onetime_attempts c6Db 0 30).1 ∧
    (c6Task, c6Attempt29) ∈ (close_stale_onetime_attempts c6Db 0 30).1 := by
  have h31 := c6_stale_sweep c6Db 0 30 c6Task c6Attempt31 (by decide)
  have h29 := c6_stale_sweep c6Db 0 30 c6Task c6Attempt29 (by decide)
  exact ⟨h31.1 ⟨rfl, rfl, by decide⟩, h29.2.1 (by decide)⟩

/-- C7: the expired-attempt sweep closes, with notification, every Started
attempt whose task is unavailable, leaves every Started attempt on a
still-available task untouched, and returns the count of exactly the rows
it closed. -/
theorem c7_close_expired (db : List (Task × TaskAttempt)) (now : Int)
    (tk : Task) (a : TaskAttempt) (hmem : (tk, a) ∈ db) :
    ((a.state = STARTED ∧ tk.is_available now = false) →
      (tk, { a with state := CLOSED, requires_notification := true }) ∈
        (close_expired_task_attempts now db).1) ∧
    ((a.state = STARTED ∧ tk.is_available now = true) →
      (tk, a) ∈ (close_expired_task_attempts now db).1) ∧
    (close_expired_task_attempts now db).2 =
      (db.filter
        (fun p => p.2.state = STARTED && !(p.1.is_available now))).length := by
  have he := close_expired_eq now db
  refine ⟨?_, ?_, ?_⟩
  · intro hc
    rw [he]
    refine List.mem_map.mpr ⟨(tk, a), hmem, ?_⟩
    simp [closeForced, hc.1, hc.2]
  · intro hc
    rw [he]
    refine List.mem_map.mpr ⟨(tk, a), hmem, ?_⟩
    simp [hc.1, hc.2]
  · rw [he]

/-- A task whose `end_date` passed one day before time 0. -/
def c7TaskExpired : Task :=
  { is_draft := false, is_invalid := false, repeatable := true,
    start_date := none, end_date := some (-86400),
    keyword_set := [], taskattempt_set := [] }

/-- A dateless task that is still available at time 0. -/
def c7TaskLive : Task :=
  { is_draft := false, is_invalid := false, repeatable := true,
    start_date := none, end_date := none,
    keyword_set := [], taskattempt_set := [] }

/-- A Started attempt used for the C7 witness. -/
def c7Attempt : TaskAttempt :=
  { user := some 0, state := STARTED, requires_notification := false,
    created := 0, modified := 0 }

/-- The two-row attempt table for the C7 witness. -/
def c7Db : List (Task × TaskAttempt) :=
  [(c7TaskExpired, c7Attempt), (c7TaskLive, c7Attempt)]

/-- C7 (witness): the Started attempt on the task whose end date was
yesterday is closed with notification, the Started attempt on the
still-available task is untouched, and the returned count is exactly 1. -/
theorem c7_close_expired_witness :
    (c7TaskExpired, { c7Attempt with
                       state := CLOSED,
                       requires_notification := true }) ∈
      (close_expired_task_attempts 0 c7Db).1 ∧
    (c7TaskLive, c7Attempt) ∈ (close_expired_task_attempts 0 c7Db).1 ∧
    (close_expired_task_attempts 0 c7Db).2 = 1 := by
  have h1 := c7_close_expired c7Db 0 c7TaskExpired c7Attempt (by decide)
  have h2 := c7_close_expired c7Db 0 c7TaskLive c7Attempt (by decide)
  refine ⟨h1.1 ⟨rfl, by decide⟩, h2.2.1 ⟨rfl, by decide⟩, ?_⟩
  rw [h1.2.2]
  decide

/-- C9: `attempt_length_in_minutes` is the difference between the modified
and created timestamps in minutes rounded to one decimal place — it is a
multiple of one tenth, differs from the exact minute count by at most one
twentieth — and an attempt modified 90 seconds after creation yields
1.5. -/
theorem c9_attempt_length (a : TaskAttempt) :
    |a.attempt_length_in_minutes -
      ((a.modified : ℚ) - (a.created : ℚ)) / 60| ≤ 1 / 20 ∧
    (10 * a.attempt_length_in_minutes).den = 1 ∧
    (a.modified = a.created + 90 → a.attempt_length_in_minutes = 3 / 2) := by
  refine ⟨?_, ?_, ?_⟩
  · have hr := abs_sub_round ((((a.modified : ℚ) - (a.created : ℚ)) / 60) * 10)
    have heq : a.attempt_length_in_minutes -
        ((a.modified : ℚ) - (a.created : ℚ)) / 60 =
        (((round ((((a.modified : ℚ) - (a.created : ℚ)) / 60) * 10) : ℤ) : ℚ) -
          (((a.modified : ℚ) - (a.created : ℚ)) / 60) * 10) / 10 := by
      simp only [TaskAttempt.attempt_length_in_minutes]
      ring
    rw [heq, abs_div]
    rw [show |(10 : ℚ)| = 10 by norm_num]
    rw [abs_sub_comm]
    linarith
  · have heq : 10 * a.attempt_length_in_minutes =
        ((round ((((a.modified : ℚ) - (a.created : ℚ)) / 60) * 10) : ℤ) : ℚ) := by
      simp only [TaskAttempt.attempt_length_in_minutes]
      ring
    rw [heq]
    exact Rat.den_intCast _
  · intro h
    simp only [TaskAttempt.attempt_length_in_minutes, h]
    have heq : ((((a.created : Int) + 90 : Int) : ℚ) - (a.created : ℚ)) / 60 * 10 =
        ((15 : ℤ) : ℚ) := by
      push_cast
      ring
    rw [heq, round_intCast]
    norm_num

/-- C9 (witness): the concrete attempt created at 0 and modified at 90
seconds has length 1.5 minutes. -/
theorem c9_attempt_length_witness :
    TaskAttempt.attempt_length_in_minutes
      { user := some 0, state := FINISHED, requires_notification := false,
        created := 0, modified := 90 } = 3 / 2 :=
  (c9_attempt_length { user := some 0, state := FINISHED,
                       requires_notification := false,
                       created := 0, modified := 90 }).2.2 (by decide)

/-- The keyword set produced by folding keyword creation over a start
task equals the task's keywords followed by the non-empty inputs. -/
theorem replace_keywords_foldl (t : Task) (kws : List String) :
    (kws.foldl
      (fun acc k =>
        if k.length ≠ 0 then { acc with keyword_set := acc.keyword_set ++ [k] }
        else acc)
      t).keyword_set =
      t.keyword_set ++ kws.filter (fun k => decide (k.length ≠ 0)) := by
  induction kws generalizing t with
  | nil => simp
  | cons k rest ih =>
    simp only [List.foldl_cons, List.filter_cons]
    by_cases h : k.length ≠ 0
    · rw [if_pos h, ih]
      simp [h]
    · rw [if_neg h, ih]
      simp [h]

/-- C10: `replace_keywords` discards all of the task's previous keywords
and leaves exactly one keyword per non-empty input string, in order, the
empty strings skipped. -/
theorem c10_replace_keywords (t : Task) (keywords : List String) :
    (t.replace_keywords keywords).keyword_set =
      keywords.filter (fun k => decide (k.length ≠ 0)) := by
  unfold Task.replace_keywords
  rw [replace_keywords_foldl]
  simp

end OneAndDone
